import Mathlib

/-!
# Shallow embedding of the PythonUtilities command-line tools

This file embeds the five scripts of the repository
(`png2icon.py`, `video2gif.py`, `WifiQRCodeGenerator.py`,
`ContactCardQRCodeGenerator.py`, `UrlQRCodeGenerator.py`) as executable
Lean definitions and proves properties of the run-scoped artifact/log
session that is common to them.

Modelling conventions:
- Python strings are Lean `String`s; `str.lower` is modelled on the ASCII
  range (the configuration keywords compared against are all ASCII).
- `os.path` functions are modelled for POSIX separators (`/`).
- Machine-level details (PIL/qrcode/moviepy rendering, the bytes of the
  produced images) are out of scope per the specification; an output file's
  content is represented by the exact tuple of inputs handed to the
  external library, which determines it.
- The logging module is modelled as the ordered list of emitted records,
  each with its numeric severity (`debug` 10, `info` 20, `error` 40,
  `critical` 50); the visible log is the records whose severity reaches the
  configured threshold (30, or 10 when `--verbose` is given).
-/

set_option autoImplicit false

namespace PyUtil

/-! ## `os.path` model (POSIX) -/

/-- Model of `os.path.join(a, b)` for POSIX: an absolute second component discards
the first; otherwise the parts are glued with `/` (no doubling when `a`
already ends in `/`, no leading `/` when `a` is empty). -/
def osPathJoin (a b : String) : String :=
  if b.data.head? = some '/' then b
  else if a = "" ∨ a.data.getLast? = some '/' then a ++ b
  else a ++ "/" ++ b

/-- Split a character list at every occurrence of `c` (Python
`str.split(sep)` for a one-character separator: always at least one
part, empty parts kept). -/
def splitOnChar (c : Char) : List Char → List (List Char)
  | [] => [[]]
  | x :: xs =>
      let r := splitOnChar c xs
      if x = c then [] :: r
      else
        match r with
        | [] => [[x]]
        | y :: ys => (x :: y) :: ys

/-- Model of `os.path.basename(p)` for POSIX: everything after the last `/`. -/
def osPathBasename (p : String) : String :=
  String.mk ((splitOnChar '/' p.data).getLastD [])

/-- Index of the last occurrence of `c` in `l`, if any. -/
def lastIdxOf (c : Char) (l : List Char) : Option Nat :=
  (List.range l.length).foldl
    (fun acc i => if l.get? i = some c then some i else acc) none

/-- The root part of `os.path.splitext(p)`: the extension (final dot and
what follows) is stripped only when the final dot comes after the last
path separator and the filename part before it is not made of dots only
(so `.bashrc` keeps its name). -/
def splitextRoot (p : String) : String :=
  let l := p.data
  match lastIdxOf '.' l with
  | none => p
  | some d =>
    let start := match lastIdxOf '/' l with
      | none => 0
      | some s => s + 1
    if start < d ∧ ((l.drop start).take (d - start)).any (fun c => c ≠ '.') then
      String.mk (l.take d)
    else p

/-! ## Python string helpers -/

/-- ASCII-range model of `str.lower` on one character. -/
def pyLowerChar (c : Char) : Char :=
  if 'A' ≤ c ∧ c ≤ 'Z' then Char.ofNat (c.toNat + 32) else c

/-- ASCII-range model of `str.lower`. -/
def pyLower (s : String) : String :=
  String.mk (s.data.map pyLowerChar)

/-- Model of `a.find(b) != -1`: `b` occurs as a substring of `a`. -/
def strContains (a b : String) : Bool :=
  decide (b.data <:+: a.data)

/-- Python `f"{n:3d}"`: decimal rendering left-padded with spaces to
width 3. -/
def fmt3d (n : Int) : String :=
  let s := toString n
  if s.length < 3 then String.mk (List.replicate (3 - s.length) ' ') ++ s
  else s

/-! ## Shared constants (identical in the three QR generators) -/

def MODULE_DRAWER_STYLE_SQUARE : String := "SquareModuleDrawer"
def MODULE_DRAWER_STYLE_GAPPED_SQUARE : String := "GappedSquareModuleDrawer"
def MODULE_DRAWER_STYLE_VERTICAL_BARS : String := "VerticalBarsDrawer"
def MODULE_DRAWER_STYLE_HORIZONTAL_BARS : String := "HorizontalBarsDrawer"
def MODULE_DRAWER_STYLE_ROUNDED : String := "RoundedModuleDrawer"
def DEFAULT_QRCODE_FILENAME : String := "vcard_qr.png"

/-- The five-way `if/elif/else` chain on `configData['config'][key].lower()`
that each QR generator's `Config.__init__` uses to resolve the module
style (WifiQRCodeGenerator.py lines 94-105, ContactCardQRCodeGenerator.py
lines 96-107, UrlQRCodeGenerator.py lines 88-99; the three chains are
textually identical). -/
def moduleStyleChain (v : String) : String :=
  if pyLower v = "gappedsquare" then MODULE_DRAWER_STYLE_GAPPED_SQUARE
  else if pyLower v = "verticalbars" then MODULE_DRAWER_STYLE_VERTICAL_BARS
  else if pyLower v = "horizontalbars" then MODULE_DRAWER_STYLE_HORIZONTAL_BARS
  else if pyLower v = "rounded" then MODULE_DRAWER_STYLE_ROUNDED
  else if pyLower v = "square" then MODULE_DRAWER_STYLE_SQUARE
  else MODULE_DRAWER_STYLE_SQUARE

/-! ## Destination-filename resolution (png2icon.py 127-130,
video2gif.py 129-132) -/

/-- The shared `--destfile` fallback logic: the given value is kept only
when it is at least 5 characters long and contains the expected extension
as a substring; otherwise the source basename with its extension stripped,
plus the expected extension, is used. -/
def resolveDestFile (ext : String) (destfile sourcefile : String) : String :=
  if destfile.length < 5 ∨ strContains destfile ext = false then
    splitextRoot (osPathBasename sourcefile) ++ ext
  else destfile

/-- png2icon.py lines 127-130. -/
def pngResolveDestFile (destfile sourcefile : String) : String :=
  resolveDestFile ".ico" destfile sourcefile

/-- video2gif.py lines 129-132. -/
def gifResolveDestFile (destfile sourcefile : String) : String :=
  resolveDestFile ".gif" destfile sourcefile

/-! ## Run environment and session globals -/

/-- The ambient facts fixed at process start that the scripts read:
the working directory, the two timestamp renderings computed from
`datetime.now(timezone.utc)` at import time (`%Y.%m.%d_%H.%M` and
`%Y.%m.%d_%H.%M.%S`), `sys.argv`, the `--verbose` flag, and the rendered
datetime/timedelta strings interpolated into the final report. -/
structure Env where
  cwd : String
  directoryDate : String
  filenameDateTime : String
  argv : List String
  verbose : Bool
  startLocal : String
  startUtc : String
  endLocal : String
  endUtc : String
  execTime : String

/-- png2icon.py line 31: `baseDirectory`. -/
def pngBaseDirectory (e : Env) : String :=
  osPathJoin (osPathJoin e.cwd "Png2Icon_Artifacts") e.directoryDate

/-- png2icon.py line 35: `LOG_FILENAME` (`logsDirectory = baseDirectory`). -/
def pngLogFilename (e : Env) : String :=
  osPathJoin (pngBaseDirectory e) ("Png2IconLog_" ++ e.filenameDateTime ++ "z.log")

/-- video2gif.py line 33: `baseDirectory`. -/
def gifBaseDirectory (e : Env) : String :=
  osPathJoin (osPathJoin e.cwd "Video2Gif_Artifacts") e.directoryDate

/-- video2gif.py line 37: `LOG_FILENAME`. -/
def gifLogFilename (e : Env) : String :=
  osPathJoin (gifBaseDirectory e) ("Video2GifLog_" ++ e.filenameDateTime ++ "z.log")

/-- The `baseDirectory` global shared verbatim by the three QR scripts
(WifiQRCodeGenerator.py line 39, ContactCardQRCodeGenerator.py line 40,
UrlQRCodeGenerator.py line 39). -/
def qrBaseDirectory (e : Env) : String :=
  osPathJoin (osPathJoin e.cwd "QRCode_Artifacts") e.directoryDate

/-- The `LOG_FILENAME` global shared verbatim by the three QR scripts
(WifiQRCodeGenerator.py line 43, ContactCardQRCodeGenerator.py line 44,
UrlQRCodeGenerator.py line 43). -/
def qrLogFilename (e : Env) : String :=
  osPathJoin (qrBaseDirectory e) ("QRCodeLog_" ++ e.filenameDateTime ++ "z.log")

/-! ## JSON configuration data and Config construction

A JSON configuration file is modelled as the inner `config` object with
one `Option` field per key (`none` = key absent). Nested color objects
are modelled as one block: the claims under study never exercise a
partially-present color object. Subscripting a missing key raises
`KeyError`, modelled as `Except.error`. -/

structure Rgb where
  r : Int
  g : Int
  b : Int
  deriving DecidableEq

/-- Model of `configData['config'][k]`: `KeyError` when the key is absent. -/
def jsonGet {α : Type} (k : String) (v : Option α) : Except String α :=
  match v with
  | some a => Except.ok a
  | none => Except.error ("KeyError: " ++ k)

/-- Keys of the WiFi tool's JSON `config` object. -/
structure WifiJson where
  FrontColor : Option Rgb
  BackColor : Option Rgb
  Size : Option Int
  Border : Option Int
  ModuleStyleWifi : Option String

/-- WifiQRCodeGenerator.py `Config` (class attributes are the defaults;
the constructor overwrites the ones it sets). `sha256`/`sha1`/`md5` are
declared in the class and never touched. -/
structure WifiConfig where
  frontColorRed : Int := 0
  frontColorGreen : Int := 0
  frontColorBlue : Int := 0
  backColorRed : Int := 0
  backColorGreen : Int := 0
  backColorBlue : Int := 0
  moduleStyleWifi : String := ""
  moduleStyleOnboarding : String := ""
  versionSize : Int := 5
  border : Int := 4
  wifiNetwork : String := ""
  wifiPassword : String := ""
  destFileWifi : String := ""
  sha256 : String := ""
  sha1 : String := ""
  md5 : String := ""
  deriving DecidableEq

/-- WifiQRCodeGenerator.py lines 79-107: `Config.__init__`. `fs` is the
module-level `filenameDateTime`. Note that `wifiNetwork`/`wifiPassword`
are NOT set here; they keep their class defaults `''`. -/
def wifiConfigInit (fs : String) (j : WifiJson) : Except String WifiConfig := do
  let fc ← jsonGet "FrontColor" j.FrontColor
  let bc ← jsonGet "BackColor" j.BackColor
  let size ← jsonGet "Size" j.Size
  let border ← jsonGet "Border" j.Border
  let ms ← jsonGet "ModuleStyleWifi" j.ModuleStyleWifi
  return { frontColorRed := fc.r, frontColorGreen := fc.g, frontColorBlue := fc.b
           backColorRed := bc.r, backColorGreen := bc.g, backColorBlue := bc.b
           versionSize := size, border := border
           moduleStyleWifi := moduleStyleChain ms
           destFileWifi := "QR_Code_Wifi_" ++ fs ++ ".png" }

/-- WifiQRCodeGenerator.py lines 292-293: `main` assigns the two CLI
positionals onto the freshly constructed config object. -/
def wifiEffectiveConfig (c0 : WifiConfig) (network password : String) : WifiConfig :=
  { c0 with wifiNetwork := network, wifiPassword := password }

/-- Keys of the URL tool's JSON `config` object. -/
structure UrlJson where
  FrontColor : Option Rgb
  BackColor : Option Rgb
  Size : Option Int
  Border : Option Int
  ModuleStyle : Option String
  Url : Option String

/-- UrlQRCodeGenerator.py `Config`. -/
structure UrlConfig where
  frontColorRed : Int := 0
  frontColorGreen : Int := 0
  frontColorBlue : Int := 0
  backColorRed : Int := 0
  backColorGreen : Int := 0
  backColorBlue : Int := 0
  ModuleStyle : String := ""
  versionSize : Int := 5
  border : Int := 4
  url : String := ""
  destFileUrl : String := ""
  deriving DecidableEq

/-- UrlQRCodeGenerator.py lines 73-102: `Config.__init__`. -/
def urlConfigInit (fs : String) (j : UrlJson) : Except String UrlConfig := do
  let fc ← jsonGet "FrontColor" j.FrontColor
  let bc ← jsonGet "BackColor" j.BackColor
  let size ← jsonGet "Size" j.Size
  let border ← jsonGet "Border" j.Border
  let ms ← jsonGet "ModuleStyle" j.ModuleStyle
  let url ← jsonGet "Url" j.Url
  return { frontColorRed := fc.r, frontColorGreen := fc.g, frontColorBlue := fc.b
           backColorRed := bc.r, backColorGreen := bc.g, backColorBlue := bc.b
           versionSize := size, border := border
           ModuleStyle := moduleStyleChain ms
           url := url
           destFileUrl := "QR_Code_Url_" ++ fs ++ ".png" }

/-- One emitted logging record: numeric severity and rendered message. -/
abbrev LogEvent := Nat × String

/-- Keys of the contact-card generator's JSON `config` object. -/
structure ContactJson where
  FrontColor : Option Rgb
  BackColor : Option Rgb
  Size : Option Int
  ModuleStyle : Option String
  FirstName : Option String
  LastName : Option String
  Title : Option String
  Organization : Option String
  Phone : Option String
  Email : Option String
  Url : Option String
  Note : Option String

/-- ContactCardQRCodeGenerator.py `Config`. -/
structure ContactConfig where
  frontColorRed : Int := 0
  frontColorGreen : Int := 0
  frontColorBlue : Int := 0
  backColorRed : Int := 0
  backColorGreen : Int := 0
  backColorBlue : Int := 0
  moduleStyle : String := ""
  versionSize : Int := 5
  firstName : String := ""
  lastName : String := ""
  title : String := ""
  organization : String := ""
  phone : String := ""
  email : String := ""
  url : String := ""
  note : String := ""
  destFileTimestamp : String := ""
  destFile : String := ""
  deriving DecidableEq

/-- ContactCardQRCodeGenerator.py lines 82-127: `Config.__init__`.
`Note` is read inside `try/except` with default `''`; the destination
filename pair is computed inside a bare `try/except` that falls back to
`DEFAULT_QRCODE_FILENAME` (logging an ERROR record) when
`destinationFile.split('.')[1]` raises `IndexError`. Returns the records
logged during construction together with the constructed object. -/
def contactConfigInit (fs : String) (j : ContactJson) (destinationFile : String) :
    Except String (List LogEvent × ContactConfig) := do
  let fc ← jsonGet "FrontColor" j.FrontColor
  let bc ← jsonGet "BackColor" j.BackColor
  let size ← jsonGet "Size" j.Size
  let ms ← jsonGet "ModuleStyle" j.ModuleStyle
  let firstName ← jsonGet "FirstName" j.FirstName
  let lastName ← jsonGet "LastName" j.LastName
  let title ← jsonGet "Title" j.Title
  let organization ← jsonGet "Organization" j.Organization
  let phone ← jsonGet "Phone" j.Phone
  let email ← jsonGet "Email" j.Email
  let url ← jsonGet "Url" j.Url
  let note := match j.Note with
    | some n => n
    | none => ""
  let parts := (splitOnChar '.' destinationFile.data).map String.mk
  let (events, destFileTimestamp, destFile) :=
    match parts.get? 1 with
    | some second =>
        (([] : List LogEvent),
         parts.headD "" ++ "_" ++ fs ++ "." ++ second, destinationFile)
    | none =>
        ([(40, "Invalid destination filename [" ++ destinationFile ++
               "]. Using the default [" ++ DEFAULT_QRCODE_FILENAME ++ "] filename.")],
         "vcard_qr" ++ "_" ++ fs ++ "." ++ "png", DEFAULT_QRCODE_FILENAME)
  return (events,
    { frontColorRed := fc.r, frontColorGreen := fc.g, frontColorBlue := fc.b
      backColorRed := bc.r, backColorGreen := bc.g, backColorBlue := bc.b
      versionSize := size
      moduleStyle := moduleStyleChain ms
      firstName := firstName, lastName := lastName, title := title
      organization := organization, phone := phone, email := email
      url := url, note := note
      destFileTimestamp := destFileTimestamp, destFile := destFile })

/-! ## Conversion actions and artifacts -/

/-- What the one delegated library call does in a given run: completes,
raises an `Exception` rendered as `msg` with `traceback.format_exc()`
rendered as `trace`, or raises `KeyboardInterrupt`. -/
inductive ConvOutcome where
  | ok
  | exn (msg trace : String)
  | interrupt

/-- The content of an output file, represented by the inputs handed to
the external rendering library (which determine the bytes; the rendering
itself is out of scope). -/
structure Artifact where
  kind : String
  payload : String
  style : String
  version : Int
  border : Int
  frontColor : Rgb
  backColor : Rgb
  deriving DecidableEq

/-- What one invocation observably did: the visible log records in
order, the process exit status, and the files written by the conversion
call (absolute path and content). -/
structure RunResult where
  logs : List String
  exitCode : Nat
  writes : List (String × Artifact)
  deriving DecidableEq

/-- The logging threshold: `WARNING` (30) by default, `DEBUG` (10) when
`--verbose` raises the logger level (png2icon.py lines 40-47, 120-121 and
the identical blocks of the other four scripts). -/
def loggerLevel (verbose : Bool) : Nat :=
  if verbose then 10 else 30

/-- The visible log lines: records whose severity reaches the threshold. -/
def visibleLogs (verbose : Bool) (events : List LogEvent) : List String :=
  (events.filter (fun ev => loggerLevel verbose ≤ ev.1)).map (fun ev => ev.2)

/-- png2icon.py lines 56-67 / identical `GetCommandLine` in the other four
scripts: the DEBUG records emitted while walking `sys.argv` and the
reconstructed command line. -/
def getCommandLineAux : Nat → String → List String → List LogEvent × String
  | _, acc, [] => ([], acc)
  | n, acc, x :: xs =>
      let acc2 := acc ++ " " ++ x
      let (evs, r) := getCommandLineAux (n + 1) acc2 xs
      ((10, toString n ++ ": " ++ x) :: (10, toString n ++ ": " ++ acc2) :: evs, r)

def getCommandLine (argv : List String) : List LogEvent × String :=
  getCommandLineAux 0 "python" argv

/-! ## Startup banner

All five scripts emit the same 22-record CRITICAL banner skeleton at the
top of `main`, differing only in the second binary line, the two centered
title lines, the copyright years and the version string. -/

def bannerBinary1 : String :=
  "01001111 01110010 01100010 01101001 01110100 01100001 01101100"

def bannerBinary2 : String :=
  "00100000 01001001 01101110 01110100 01100101 01101100 00000000"

def bannerHashes : String :=
  String.mk (List.replicate 62 '#')

def bannerEquals : String :=
  String.mk (List.replicate 62 '=')

/-- The 45-character hash rule used by the exception handlers. -/
def hashes45 : String :=
  String.mk (List.replicate 45 '#')

/-- The 39-character tilde rule used by the general-error handlers. -/
def tildes39 : String :=
  String.mk (List.replicate 39 '~')

/-- The 54-character hash rule used by the closing banner. -/
def hashes54 : String :=
  String.mk (List.replicate 54 '#')

def bannerEvents (bin2 title1 title2 copyrightYears version : String) :
    List LogEvent :=
  [(50, "     ____       __    _ __        __   ____      __       __"),
   (50, "    / __ \\_____/ /_  (_) /_____ _/ /  /  _/___  / /____  / /"),
   (50, "   / / / / ___/ __ \\/ / __/ __ `/ /   / // __ \\/ __/ _ \\/ / "),
   (50, "  / /_/ / /  / /_/ / / /_/ /_/ / /  _/ // / / / /_/  __/ /  "),
   (50, "  \\____/_/  /_.___/_/\\__/\\__,_/_/  /___/_/ /_/\\__/\\___/_/   "),
   (50, ""),
   (50, bannerHashes),
   (50, bannerBinary1),
   (50, bin2),
   (50, bannerEquals),
   (50, ""),
   (50, title1),
   (50, title2),
   (50, ""),
   (50, bannerEquals),
   (50, bannerBinary1),
   (50, bin2),
   (50, bannerHashes),
   (50, ""),
   (50, "Copyright (c) " ++ copyrightYears ++ " Orbital Intelligence LLC"),
   (50, "Version " ++ version),
   (50, "")]

/-! ## png2icon.py -/

/-- Content written by `sourcePng.save(destFile, format='ICO',
sizes=[(32, 32)])`. -/
def icoArtifact (sourceFile : String) : Artifact :=
  { kind := "ico32x32", payload := sourceFile, style := "", version := 0,
    border := 0, frontColor := ⟨0, 0, 0⟩, backColor := ⟨0, 0, 0⟩ }

/-- png2icon.py lines 49-54: `GenerateIcoFile`. The `try/except
Exception` INSIDE the function swallows a raising conversion and logs one
ERROR record with the message only; `KeyboardInterrupt` is not an
`Exception` and propagates (handled by the caller). A relative
destination path is written relative to the process working directory. -/
def generateIcoFile (cwd sourceFile destFile : String) (o : ConvOutcome) :
    List LogEvent × List (String × Artifact) :=
  match o with
  | .ok => ([], [(osPathJoin cwd destFile, icoArtifact sourceFile)])
  | .exn msg _ => ([(40, "Error processing " ++ sourceFile ++ ": " ++ msg)], [])
  | .interrupt => ([], [])

/-- png2icon.py lines 149-154: the `KeyboardInterrupt` handler records. -/
def pngAbortEvents : List LogEvent :=
  [(50, ""),
   (50, hashes45),
   (50, "png2icon.py aborted by user."),
   (50, hashes45)]

/-- png2icon.py lines 162-180: the `finally` block records. -/
def pngFinallyEvents (e : Env) (destFile : String) : List LogEvent :=
  [(50, ""),
   (10, "png2icon processing started at:   " ++ e.startLocal ++ "L / " ++ e.startUtc ++ "Z"),
   (10, "png2icon processing completed at: " ++ e.endLocal ++ "L / " ++ e.endUtc ++ "Z"),
   (10, ""),
   (50, "png2icon processing time:   " ++ e.execTime ++ " "),
   (50, ""),
   (50, ".ico file: " ++ osPathJoin (pngBaseDirectory e) destFile),
   (50, ""),
   (50, "Log file:  " ++ pngLogFilename e),
   (50, ""),
   (50, hashes54),
   (50, "png2icon completed.   "),
   (50, hashes54)]

/-- png2icon.py lines 70-180: `main`, from the banner on, for an
invocation with positional `sourcefile`, option `--destfile` and a
conversion behaving as `o`. The `sys.exit(0)` of the interrupt handler
raises `SystemExit(0)`, so the `finally` block still runs and the process
exits 0; on every other path `main` falls off the end (exit 0). -/
def png2iconMain (e : Env) (sourcefile destfile : String) (o : ConvOutcome) :
    RunResult :=
  let destFile := pngResolveDestFile destfile sourcefile
  let (cmdEvents, cmdLine) := getCommandLine e.argv
  let pre := bannerEvents bannerBinary2
    "                            Orbital Intel                     "
    "                       .PNG to .ICO Converter                 "
    "2024" "2024.11.21"
  let tryHead := [((50 : Nat), "")] ++ cmdEvents ++
    [(50, "Command line:     " ++ cmdLine),
     (50, "Source PNG File:  " ++ sourcefile),
     (50, "Output ICO File:  " ++ destFile),
     (50, ""),
     (50, "Converting " ++ osPathBasename sourcefile ++ " to a .ICO file...")]
  let (convEvents, writes) := generateIcoFile e.cwd sourcefile destFile o
  let mid := match o with
    | .interrupt => convEvents ++ pngAbortEvents
    | _ => convEvents ++ [(50, "Generated " ++ destFile)]
  { logs := visibleLogs e.verbose (pre ++ tryHead ++ mid ++ pngFinallyEvents e destFile),
    exitCode := 0,
    writes := writes }

/-! ## video2gif.py -/

/-- Content written by `videoFileClip.write_gif(destFile)`. -/
def gifArtifact (sourceFile : String) : Artifact :=
  { kind := "gif", payload := sourceFile, style := "", version := 0,
    border := 0, frontColor := ⟨0, 0, 0⟩, backColor := ⟨0, 0, 0⟩ }

/-- video2gif.py lines 51-56: `GenerateGifFile` (same internal
`try/except Exception` as `GenerateIcoFile`). -/
def generateGifFile (cwd sourceFile destFile : String) (o : ConvOutcome) :
    List LogEvent × List (String × Artifact) :=
  match o with
  | .ok => ([], [(osPathJoin cwd destFile, gifArtifact sourceFile)])
  | .exn msg _ => ([(40, "Error processing " ++ sourceFile ++ ": " ++ msg)], [])
  | .interrupt => ([], [])

/-- video2gif.py lines 151-156: the `KeyboardInterrupt` handler records. -/
def gifAbortEvents : List LogEvent :=
  [(50, ""),
   (50, hashes45),
   (50, "Video2Gif.py aborted by user."),
   (50, hashes45)]

/-- video2gif.py lines 164-182: the `finally` block records. -/
def gifFinallyEvents (e : Env) (destFile : String) : List LogEvent :=
  [(50, ""),
   (10, "Video2Gif processing started at:   " ++ e.startLocal ++ "L / " ++ e.startUtc ++ "Z"),
   (10, "Video2Gif processing completed at: " ++ e.endLocal ++ "L / " ++ e.endUtc ++ "Z"),
   (10, ""),
   (50, "Video2Gif processing time:   " ++ e.execTime ++ " "),
   (50, ""),
   (50, ".gif file: " ++ osPathJoin (gifBaseDirectory e) destFile),
   (50, ""),
   (50, "Log file:  " ++ gifLogFilename e),
   (50, ""),
   (50, hashes54),
   (50, "Video2Gif completed.   "),
   (50, hashes54)]

/-- video2gif.py lines 72-182: `main`, from the banner on. -/
def video2gifMain (e : Env) (sourcefile destfile : String) (o : ConvOutcome) :
    RunResult :=
  let destFile := gifResolveDestFile destfile sourcefile
  let (cmdEvents, cmdLine) := getCommandLine e.argv
  let pre := bannerEvents bannerBinary2
    "                            Orbital Intel                     "
    "                    Video file to .GIF Converter              "
    "2024" "2024.12.26"
  let tryHead := [((50 : Nat), "")] ++ cmdEvents ++
    [(50, "Command line:     " ++ cmdLine),
     (50, "Source PNG File:  " ++ sourcefile),
     (50, "Output GIF File:  " ++ destFile),
     (50, ""),
     (50, "Converting " ++ osPathBasename sourcefile ++ " to a .GIF file...")]
  let (convEvents, writes) := generateGifFile e.cwd sourcefile destFile o
  let mid := match o with
    | .interrupt => convEvents ++ gifAbortEvents
    | _ => convEvents ++ [(50, "Generated " ++ destFile)]
  { logs := visibleLogs e.verbose (pre ++ tryHead ++ mid ++ gifFinallyEvents e destFile),
    exitCode := 0,
    writes := writes }

/-! ## WifiQRCodeGenerator.py -/

/-- WifiQRCodeGenerator.py line 138: the string handed to
`qrWifi.add_data`. -/
def wifiQrData (c : WifiConfig) : String :=
  "WIFI:S:" ++ c.wifiNetwork ++ ";T:WPA;P:" ++ c.wifiPassword ++ ";H:false;;"

/-- Content written by `qr_img.save` in `GenerateWifiQRCode`: the QR
encoding of `wifiQrData` rendered with the configured style, version,
border and colors. -/
def wifiArtifact (c : WifiConfig) : Artifact :=
  { kind := "qrpng", payload := wifiQrData c, style := c.moduleStyleWifi,
    version := c.versionSize, border := c.border,
    frontColor := ⟨c.frontColorRed, c.frontColorGreen, c.frontColorBlue⟩,
    backColor := ⟨c.backColorRed, c.backColorGreen, c.backColorBlue⟩ }

/-- WifiQRCodeGenerator.py lines 131-223: `GenerateWifiQRCode`. No
internal exception handling: a raising library call (`.exn`) or a
`KeyboardInterrupt` (`.interrupt`) produces no write and propagates to
the caller's handlers. The file is saved at
`os.path.join(baseDirectory, config.destFileWifi)`. -/
def generateWifiQRCode (e : Env) (c : WifiConfig) (o : ConvOutcome) :
    List LogEvent × List (String × Artifact) :=
  match o with
  | .ok => ([], [(osPathJoin (qrBaseDirectory e) c.destFileWifi, wifiArtifact c)])
  | _ => ([], [])

/-- WifiQRCodeGenerator.py lines 324-330: the `except Exception` handler
records. -/
def wifiErrorEvents (msg trace : String) : List LogEvent :=
  [(50, hashes45),
   (50, "General Error during WifiQRCodeGenerator.py processing."),
   (50, tildes39),
   (50, "Error: " ++ msg),
   (50, "Call Stack:\n" ++ trace),
   (50, hashes45)]

/-- WifiQRCodeGenerator.py lines 318-323: the `KeyboardInterrupt`
handler records. -/
def wifiAbortEvents : List LogEvent :=
  [(50, ""),
   (50, hashes45),
   (50, "WifiQRCodeGenerator.py aborted by user."),
   (50, hashes45)]

/-- WifiQRCodeGenerator.py lines 331-349: the `finally` block records
(the started/completed lines are INFO here, not DEBUG). -/
def wifiFinallyEvents (e : Env) (c : WifiConfig) : List LogEvent :=
  [(50, ""),
   (20, "WifiQRCodeGenerator processing started at:   " ++ e.startLocal ++ "L / " ++ e.startUtc ++ "Z"),
   (20, "WifiQRCodeGenerator processing completed at: " ++ e.endLocal ++ "L / " ++ e.endUtc ++ "Z"),
   (20, ""),
   (50, "WifiQRCodeGenerator processing time:   " ++ e.execTime ++ " "),
   (50, ""),
   (50, "WiFi QR Code file: " ++ osPathJoin (qrBaseDirectory e) c.destFileWifi),
   (50, ""),
   (50, "Log file: " ++ qrLogFilename e),
   (50, ""),
   (50, hashes54),
   (50, "WifiQRCodeGenerator completed.   "),
   (50, hashes54)]

/-- WifiQRCodeGenerator.py lines 225-349: `main`, from the banner on,
for an invocation whose `Config(configFile)` construction succeeded with
value `c0` (lines 291-293 then assign the `network` and `password`
positionals onto it) and whose conversion behaves as `o`. -/
def wifiMainOk (e : Env) (c0 : WifiConfig) (network password : String)
    (o : ConvOutcome) : RunResult :=
  let c := wifiEffectiveConfig c0 network password
  let (cmdEvents, cmdLine) := getCommandLine e.argv
  let pre := bannerEvents bannerBinary1
    "                        Orbital Intel                         "
    "                WiFi Network QR Code Generator                "
    "2024" "2024.11.21"
  let tryHead := [((50 : Nat), "")] ++ cmdEvents ++
    [(50, "Command line:     " ++ cmdLine),
     (50, "QR Code File:     " ++ c.destFileWifi),
     (50, "Module Style E:   " ++ c.moduleStyleWifi),
     (50, "Module Style O:   " ++ c.moduleStyleOnboarding),
     (50, "Version/Size:     " ++ toString c.versionSize),
     (50, "Border:           " ++ toString c.border),
     (50, "Wifi Network:     " ++ c.wifiNetwork),
     (50, "Wifi Password:    " ++ c.wifiPassword),
     (50, "Front Color:      " ++ fmt3d c.frontColorRed ++ " " ++ fmt3d c.frontColorGreen ++ " " ++ fmt3d c.frontColorBlue),
     (50, "Back Color:       " ++ fmt3d c.backColorRed ++ " " ++ fmt3d c.backColorGreen ++ " " ++ fmt3d c.backColorBlue),
     (50, ""),
     (50, "Generating WiFi QR Code...")]
  let (convEvents, writes) := generateWifiQRCode e c o
  let mid := match o with
    | .ok => convEvents ++ [(50, "Success")]
    | .exn msg trace => convEvents ++ wifiErrorEvents msg trace
    | .interrupt => convEvents ++ wifiAbortEvents
  { logs := visibleLogs e.verbose (pre ++ tryHead ++ mid ++ wifiFinallyEvents e c),
    exitCode := 0,
    writes := writes }

/-! ## UrlQRCodeGenerator.py -/

/-- Content written by `qr_img.save` in `GenerateUrlQRCode`: the QR
encoding of `config.url`. -/
def urlArtifact (c : UrlConfig) : Artifact :=
  { kind := "qrpng", payload := c.url, style := c.ModuleStyle,
    version := c.versionSize, border := c.border,
    frontColor := ⟨c.frontColorRed, c.frontColorGreen, c.frontColorBlue⟩,
    backColor := ⟨c.backColorRed, c.backColorGreen, c.backColorBlue⟩ }

/-- UrlQRCodeGenerator.py lines 126-218: `GenerateUrlQRCode`. -/
def generateUrlQRCode (e : Env) (c : UrlConfig) (o : ConvOutcome) :
    List LogEvent × List (String × Artifact) :=
  match o with
  | .ok => ([], [(osPathJoin (qrBaseDirectory e) c.destFileUrl, urlArtifact c)])
  | _ => ([], [])

/-- UrlQRCodeGenerator.py lines 306-312: the `except Exception` handler
records. -/
def urlErrorEvents (msg trace : String) : List LogEvent :=
  [(50, hashes45),
   (50, "General Error during UrlQRCodeGenerator.py processing."),
   (50, tildes39),
   (50, "Error: " ++ msg),
   (50, "Call Stack:\n" ++ trace),
   (50, hashes45)]

/-- UrlQRCodeGenerator.py lines 300-305: the `KeyboardInterrupt` handler
records. -/
def urlAbortEvents : List LogEvent :=
  [(50, ""),
   (50, hashes45),
   (50, "UrlQRCodeGenerator.py aborted by user."),
   (50, hashes45)]

/-- UrlQRCodeGenerator.py lines 313-331: the `finally` block records. -/
def urlFinallyEvents (e : Env) (c : UrlConfig) : List LogEvent :=
  [(50, ""),
   (20, "UrlQRCodeGenerator processing started at:   " ++ e.startLocal ++ "L / " ++ e.startUtc ++ "Z"),
   (20, "UrlQRCodeGenerator processing completed at: " ++ e.endLocal ++ "L / " ++ e.endUtc ++ "Z"),
   (20, ""),
   (50, "UrlQRCodeGenerator processing time:   " ++ e.execTime ++ " "),
   (50, ""),
   (50, "URL QR Code file: " ++ osPathJoin (qrBaseDirectory e) c.destFileUrl),
   (50, ""),
   (50, "Log file: " ++ qrLogFilename e),
   (50, ""),
   (50, hashes54),
   (50, "UrlQRCodeGenerator completed.   "),
   (50, hashes54)]

/-- UrlQRCodeGenerator.py lines 221-331: `main`, from the banner on, for
an invocation whose `Config(configFile)` construction succeeded with
value `c0` (used unchanged thereafter). -/
def urlMainOk (e : Env) (c0 : UrlConfig) (o : ConvOutcome) : RunResult :=
  let c := c0
  let (cmdEvents, cmdLine) := getCommandLine e.argv
  let pre := bannerEvents bannerBinary1
    "                        Orbital Intel                         "
    "                    URL QR Code Generator                     "
    "2023-2024" "2024.11.21"
  let tryHead := [((50 : Nat), "")] ++ cmdEvents ++
    [(50, "Command line:     " ++ cmdLine),
     (50, "QR Code File:     " ++ c.destFileUrl),
     (50, "Module Style:     " ++ c.ModuleStyle),
     (50, "Version/Size:     " ++ toString c.versionSize),
     (50, "Border:           " ++ toString c.border),
     (50, "Url:              " ++ c.url),
     (50, "Front Color:      " ++ fmt3d c.frontColorRed ++ " " ++ fmt3d c.frontColorGreen ++ " " ++ fmt3d c.frontColorBlue),
     (50, "Back Color:       " ++ fmt3d c.backColorRed ++ " " ++ fmt3d c.backColorGreen ++ " " ++ fmt3d c.backColorBlue),
     (50, ""),
     (50, "Generating URL QR Code...")]
  let (convEvents, writes) := generateUrlQRCode e c o
  let mid := match o with
    | .ok => convEvents ++ [(50, "Success")]
    | .exn msg trace => convEvents ++ urlErrorEvents msg trace
    | .interrupt => convEvents ++ urlAbortEvents
  { logs := visibleLogs e.verbose (pre ++ tryHead ++ mid ++ urlFinallyEvents e c),
    exitCode := 0,
    writes := writes }

/-! ## ContactCardQRCodeGenerator.py -/

/-- ContactCardQRCodeGenerator.py lines 160-170: the VCARD payload
`cardData`. -/
def contactCardData (c : ContactConfig) : String :=
  "BEGIN:VCARD\n" ++
  "VERSION:4.0\n" ++
  "N:" ++ c.lastName ++ ";" ++ c.firstName ++ ";;;\n" ++
  "FN:" ++ c.firstName ++ " " ++ c.lastName ++ "\n" ++
  "TITLE:" ++ c.title ++ "\n" ++
  "ORG:" ++ c.organization ++ "\n" ++
  "TEL;TYPE=work:" ++ c.phone ++ "\n" ++
  "EMAIL;TYPE=work:" ++ c.email ++ "\n" ++
  "URL:" ++ c.url ++ "\n" ++
  "NOTE:" ++ c.note ++ "\n" ++
  "END:VCARD"

/-- Content written by both `qr_img.save` calls in
`GenerateContactCard`: the QR encoding of the VCARD payload (the
contact-card tool passes no border; the library default 4 applies). -/
def contactArtifact (c : ContactConfig) : Artifact :=
  { kind := "qrpng", payload := contactCardData c, style := c.moduleStyle,
    version := c.versionSize, border := 4,
    frontColor := ⟨c.frontColorRed, c.frontColorGreen, c.frontColorBlue⟩,
    backColor := ⟨c.backColorRed, c.backColorGreen, c.backColorBlue⟩ }

/-- ContactCardQRCodeGenerator.py lines 151-259: `GenerateContactCard`.
It logs the card data (line 172) and then saves the SAME rendered image
object twice: under the stable name `config.destFile` and under the
timestamped name `config.destFileTimestamp`, both joined onto
`baseDirectory` (lines 257-259). A raising library call or an interrupt
after the card-data record produces no write. -/
def generateContactCard (e : Env) (c : ContactConfig) (o : ConvOutcome) :
    List LogEvent × List (String × Artifact) :=
  let cardEvent : LogEvent := (50, "Card Data:\n" ++ contactCardData c)
  match o with
  | .ok => ([cardEvent],
      [(osPathJoin (qrBaseDirectory e) c.destFile, contactArtifact c),
       (osPathJoin (qrBaseDirectory e) c.destFileTimestamp, contactArtifact c)])
  | _ => ([cardEvent], [])

/-- ContactCardQRCodeGenerator.py lines 356-362: the `except Exception`
handler records. -/
def contactErrorEvents (msg trace : String) : List LogEvent :=
  [(50, hashes45),
   (50, "General Error during ContactCardQRCodeGenerator.py processing."),
   (50, tildes39),
   (50, "Error: " ++ msg),
   (50, "Call Stack:\n" ++ trace),
   (50, hashes45)]

/-- ContactCardQRCodeGenerator.py lines 350-355: the `KeyboardInterrupt`
handler records. -/
def contactAbortEvents : List LogEvent :=
  [(50, ""),
   (50, hashes45),
   (50, "ContactCardQRCodeGenerator.py aborted by user."),
   (50, hashes45)]

/-- ContactCardQRCodeGenerator.py lines 363-382: the `finally` block
records. -/
def contactFinallyEvents (e : Env) (c : ContactConfig) : List LogEvent :=
  [(50, ""),
   (20, "ContactCardQRCodeGenerator processing started at:   " ++ e.startLocal ++ "L / " ++ e.startUtc ++ "Z"),
   (20, "ContactCardQRCodeGenerator processing completed at: " ++ e.endLocal ++ "L / " ++ e.endUtc ++ "Z"),
   (20, ""),
   (50, "ContactCardQRCodeGenerator processing time:   " ++ e.execTime ++ " "),
   (50, ""),
   (50, "QR Code file: " ++ osPathJoin (qrBaseDirectory e) c.destFile),
   (50, "QR Code file: " ++ osPathJoin (qrBaseDirectory e) c.destFileTimestamp),
   (50, ""),
   (50, "Log file:     " ++ qrLogFilename e),
   (50, ""),
   (50, hashes54),
   (50, "ContactCardQRCodeGenerator completed.   "),
   (50, hashes54)]

/-- ContactCardQRCodeGenerator.py lines 261-382: `main`, from the banner
on, for an invocation whose `Config(configFile, destFile)` construction
succeeded, emitting `initEvents` and returning `c0` (used unchanged
thereafter). -/
def contactMainOk (e : Env) (initEvents : List LogEvent) (c0 : ContactConfig)
    (o : ConvOutcome) : RunResult :=
  let c := c0
  let (cmdEvents, cmdLine) := getCommandLine e.argv
  let pre := bannerEvents bannerBinary1
    "                        Orbital Intel                         "
    "                   QR Code VCard Generator                    "
    "2023-2024" "2024.11.21"
  let tryHead := initEvents ++ [((50 : Nat), "")] ++ cmdEvents ++
    [(50, "Command line: " ++ cmdLine),
     (50, "QR Code File: " ++ c.destFile),
     (50, "Module Style: " ++ c.moduleStyle),
     (50, "Version/Size: " ++ toString c.versionSize),
     (50, "First Name:   " ++ c.firstName),
     (50, "Last Name:    " ++ c.lastName),
     (50, "Title:        " ++ c.title),
     (50, "Organization: " ++ c.organization),
     (50, "Phone:        " ++ c.phone),
     (50, "Email:        " ++ c.email),
     (50, "Url:          " ++ c.url),
     (50, "Front Color:  " ++ fmt3d c.frontColorRed ++ " " ++ fmt3d c.frontColorGreen ++ " " ++ fmt3d c.frontColorBlue),
     (50, "Back Color:   " ++ fmt3d c.backColorRed ++ " " ++ fmt3d c.backColorGreen ++ " " ++ fmt3d c.backColorBlue),
     (50, ""),
     (50, "Generating VCard Contact Card QR Code...")]
  let (convEvents, writes) := generateContactCard e c o
  let mid := match o with
    | .ok => convEvents ++ [(50, "Success")]
    | .exn msg trace => convEvents ++ contactErrorEvents msg trace
    | .interrupt => convEvents ++ contactAbortEvents
  { logs := visibleLogs e.verbose (pre ++ tryHead ++ mid ++ contactFinallyEvents e c),
    exitCode := 0,
    writes := writes }

/-! ## Sample data used by witnesses and counterexamples -/

/-- A concrete run environment. -/
def sampleEnv : Env :=
  { cwd := "/work", directoryDate := "2024.11.21_10.30",
    filenameDateTime := "2024.11.21_10.30.05",
    argv := ["png2icon.py", "logo.png"], verbose := false,
    startLocal := "2024-11-21 05:30:05.100000",
    startUtc := "2024-11-21 10:30:05.100000+00:00",
    endLocal := "2024-11-21 05:30:06.200000",
    endUtc := "2024-11-21 10:30:06.200000+00:00",
    execTime := "0:00:01.100000" }

/-- A concrete, fully populated WiFi JSON configuration. -/
def sampleWifiJson : WifiJson :=
  { FrontColor := some ⟨0, 0, 0⟩, BackColor := some ⟨255, 255, 255⟩,
    Size := some 5, Border := some 4, ModuleStyleWifi := some "Rounded" }

/-- The `Config` value that `wifiConfigInit` produces from
`sampleWifiJson` at the sample timestamp. -/
def sampleWifiConfig : WifiConfig :=
  { frontColorRed := 0, frontColorGreen := 0, frontColorBlue := 0,
    backColorRed := 255, backColorGreen := 255, backColorBlue := 255,
    moduleStyleWifi := "RoundedModuleDrawer", moduleStyleOnboarding := "",
    versionSize := 5, border := 4, wifiNetwork := "", wifiPassword := "",
    destFileWifi := "QR_Code_Wifi_2024.11.21_10.30.05.png",
    sha256 := "", sha1 := "", md5 := "" }

/-- Whether a construction attempt succeeded. -/
def isOkB {α : Type} : Except String α → Bool
  | .ok _ => true
  | .error _ => false

/-- A concrete contact-card JSON configuration with every key except
`Note`. -/
def sampleContactJson : ContactJson :=
  { FrontColor := some ⟨0, 0, 0⟩, BackColor := some ⟨255, 255, 255⟩,
    Size := some 5, ModuleStyle := some "Square",
    FirstName := some "Ada", LastName := some "Lovelace",
    Title := some "Countess", Organization := some "Analytical Engines Ltd",
    Phone := some "+44 20 0000 0000", Email := some "ada@example.org",
    Url := some "https://example.org", Note := none }

/-- The same configuration with `FirstName` also missing. -/
def sampleContactJsonNoFirst : ContactJson :=
  { sampleContactJson with FirstName := none }

/-! ## Claims -/

/-- C3: a module-style string that does not case-insensitively equal one
of square, gappedsquare, verticalbars, horizontalbars, rounded resolves
to the square style, and each of those five values, in any letter case,
resolves to its corresponding drawer (the dispatch chain shared by the
three QR generators' `Config.__init__`). -/
theorem moduleStyle_fallback_and_dispatch (s : String) :
    (pyLower s ∉ ["square", "gappedsquare", "verticalbars", "horizontalbars", "rounded"] →
      moduleStyleChain s = MODULE_DRAWER_STYLE_SQUARE) ∧
    (pyLower s = "square" → moduleStyleChain s = MODULE_DRAWER_STYLE_SQUARE) ∧
    (pyLower s = "gappedsquare" → moduleStyleChain s = MODULE_DRAWER_STYLE_GAPPED_SQUARE) ∧
    (pyLower s = "verticalbars" → moduleStyleChain s = MODULE_DRAWER_STYLE_VERTICAL_BARS) ∧
    (pyLower s = "horizontalbars" → moduleStyleChain s = MODULE_DRAWER_STYLE_HORIZONTAL_BARS) ∧
    (pyLower s = "rounded" → moduleStyleChain s = MODULE_DRAWER_STYLE_ROUNDED) := by
  refine ⟨?_, ?_, ?_, ?_, ?_, ?_⟩ <;> intro h
  · simp only [List.mem_cons, List.not_mem_nil, or_false, not_or] at h
    obtain ⟨h1, h2, h3, h4, h5⟩ := h
    simp [moduleStyleChain, h1, h2, h3, h4, h5]
  all_goals rw [moduleStyleChain, h]; decide

/-- Witness for C3 at concrete inputs. -/
theorem moduleStyle_fallback_and_dispatch_w :
    moduleStyleChain "Fancy" = MODULE_DRAWER_STYLE_SQUARE ∧
    moduleStyleChain "GAPPEDSQUARE" = MODULE_DRAWER_STYLE_GAPPED_SQUARE ∧
    moduleStyleChain "rOUNDED" = MODULE_DRAWER_STYLE_ROUNDED :=
  ⟨(moduleStyle_fallback_and_dispatch "Fancy").1 (by decide),
   (moduleStyle_fallback_and_dispatch "GAPPEDSQUARE").2.2.1 (by decide),
   (moduleStyle_fallback_and_dispatch "rOUNDED").2.2.2.2.2 (by decide)⟩

/-- C4: a `--destfile` value shorter than 5 characters or lacking the
expected extension substring resolves to the source basename with its
extension stripped plus the expected extension; any other value is kept
unchanged (png2icon.py lines 127-130, video2gif.py lines 129-132). -/
theorem destfile_resolution (destfile sourcefile : String) :
    ((destfile.length < 5 ∨ strContains destfile ".ico" = false) →
      pngResolveDestFile destfile sourcefile =
        splitextRoot (osPathBasename sourcefile) ++ ".ico") ∧
    (¬ (destfile.length < 5 ∨ strContains destfile ".ico" = false) →
      pngResolveDestFile destfile sourcefile = destfile) ∧
    ((destfile.length < 5 ∨ strContains destfile ".gif" = false) →
      gifResolveDestFile destfile sourcefile =
        splitextRoot (osPathBasename sourcefile) ++ ".gif") ∧
    (¬ (destfile.length < 5 ∨ strContains destfile ".gif" = false) →
      gifResolveDestFile destfile sourcefile = destfile) := by
  refine ⟨?_, ?_, ?_, ?_⟩ <;> intro h <;>
    simp [pngResolveDestFile, gifResolveDestFile, resolveDestFile, h]

/-- Witness for C4 at concrete inputs. -/
theorem destfile_resolution_w :
    pngResolveDestFile "x.png" "dir/photo.jpeg" = "photo.ico" ∧
    pngResolveDestFile "mine.ico" "dir/photo.jpeg" = "mine.ico" ∧
    gifResolveDestFile "" "clip.final.mp4" = "clip.final.gif" :=
  ⟨((destfile_resolution "x.png" "dir/photo.jpeg").1 (by decide)).trans (by decide),
   (destfile_resolution "mine.ico" "dir/photo.jpeg").2.1 (by decide),
   ((destfile_resolution "" "clip.final.mp4").2.2.1 (by decide)).trans (by decide)⟩

/-- C5: for a WiFi invocation whose config construction succeeded and
which was given network `network` and password `password`, the payload of
the single file the conversion writes — the string handed to
`qrWifi.add_data` — is exactly
`WIFI:S:<network>;T:WPA;P:<password>;H:false;;`. -/
theorem wifi_payload_exact (e : Env) (j : WifiJson) (c0 : WifiConfig)
    (network password : String)
    (h : wifiConfigInit e.filenameDateTime j = Except.ok c0) :
    (wifiMainOk e c0 network password .ok).writes.map (fun w => w.2.payload) =
      ["WIFI:S:" ++ network ++ ";T:WPA;P:" ++ password ++ ";H:false;;"] := by
  simp [wifiMainOk, generateWifiQRCode, wifiArtifact, wifiQrData, wifiEffectiveConfig]

/-- Witness for C5: the HomeNet/secret123 scenario of the spec. -/
theorem wifi_payload_exact_w :
    (wifiMainOk sampleEnv sampleWifiConfig "HomeNet" "secret123" .ok).writes.map
        (fun w => w.2.payload) =
      ["WIFI:S:HomeNet;T:WPA;P:secret123;H:false;;"] :=
  wifi_payload_exact sampleEnv sampleWifiJson sampleWifiConfig "HomeNet" "secret123" rfl

/-- C6 counterexample: the three QR generators name their log file with
the shared prefix `QRCode`, not with the invoked tool's name: at the
sample timestamps, the WiFi generator's `LOG_FILENAME` differs from
`<baseDirectory>/WifiQRCodeGeneratorLog_<stamp>z.log`. -/
theorem log_filename_toolname_cex :
    qrLogFilename sampleEnv ≠
      osPathJoin (qrBaseDirectory sampleEnv)
        ("WifiQRCodeGeneratorLog_" ++ sampleEnv.filenameDateTime ++ "z.log") := by
  decide

/-- C6 amended: every tool's log file path is `baseDirectory` joined
with `<Prefix>Log_<second-resolution timestamp>z.log`, where the prefix
is the tool name for Png2Icon and Video2Gif and the shared literal
`QRCode` for the three QR generators. -/
theorem log_filename_shape (e : Env) :
    pngLogFilename e =
      osPathJoin (pngBaseDirectory e) ("Png2IconLog_" ++ e.filenameDateTime ++ "z.log") ∧
    gifLogFilename e =
      osPathJoin (gifBaseDirectory e) ("Video2GifLog_" ++ e.filenameDateTime ++ "z.log") ∧
    qrLogFilename e =
      osPathJoin (qrBaseDirectory e) ("QRCodeLog_" ++ e.filenameDateTime ++ "z.log") :=
  ⟨rfl, rfl, rfl⟩

/-- C7 counterexample: the WiFi generator's config IS mutated after
construction: `main` assigns the network positional onto it, so at the
conversion call `wifiNetwork` is `HomeNet` while construction returned it
as `''`. -/
theorem config_immutable_cex :
    wifiConfigInit "2024.11.21_10.30.05" sampleWifiJson = Except.ok sampleWifiConfig ∧
    (wifiEffectiveConfig sampleWifiConfig "HomeNet" "secret123").wifiNetwork ≠
      sampleWifiConfig.wifiNetwork :=
  ⟨rfl, by decide⟩

/-- C7 amended: after construction the WiFi tool's `main` assigns exactly
the two CLI credential fields (`wifiNetwork`, `wifiPassword`) onto the
config before any use; every other field is unchanged, and the URL and
contact-card tools hand their constructed config to the conversion with
no change at all. -/
theorem config_mutation_scope (c0 : WifiConfig) (network password : String) :
    (wifiEffectiveConfig c0 network password).wifiNetwork = network ∧
    (wifiEffectiveConfig c0 network password).wifiPassword = password ∧
    (wifiEffectiveConfig c0 network password).frontColorRed = c0.frontColorRed ∧
    (wifiEffectiveConfig c0 network password).frontColorGreen = c0.frontColorGreen ∧
    (wifiEffectiveConfig c0 network password).frontColorBlue = c0.frontColorBlue ∧
    (wifiEffectiveConfig c0 network password).backColorRed = c0.backColorRed ∧
    (wifiEffectiveConfig c0 network password).backColorGreen = c0.backColorGreen ∧
    (wifiEffectiveConfig c0 network password).backColorBlue = c0.backColorBlue ∧
    (wifiEffectiveConfig c0 network password).moduleStyleWifi = c0.moduleStyleWifi ∧
    (wifiEffectiveConfig c0 network password).moduleStyleOnboarding = c0.moduleStyleOnboarding ∧
    (wifiEffectiveConfig c0 network password).versionSize = c0.versionSize ∧
    (wifiEffectiveConfig c0 network password).border = c0.border ∧
    (wifiEffectiveConfig c0 network password).destFileWifi = c0.destFileWifi ∧
    (wifiEffectiveConfig c0 network password).sha256 = c0.sha256 ∧
    (wifiEffectiveConfig c0 network password).sha1 = c0.sha1 ∧
    (wifiEffectiveConfig c0 network password).md5 = c0.md5 ∧
    (∀ (e : Env) (c : UrlConfig), (urlMainOk e c .ok).writes =
      [(osPathJoin (qrBaseDirectory e) c.destFileUrl, urlArtifact c)]) ∧
    (∀ (e : Env) (evs : List LogEvent) (c : ContactConfig),
      (contactMainOk e evs c .ok).writes =
        [(osPathJoin (qrBaseDirectory e) c.destFile, contactArtifact c),
         (osPathJoin (qrBaseDirectory e) c.destFileTimestamp, contactArtifact c)]) := by
  refine ⟨rfl, rfl, rfl, rfl, rfl, rfl, rfl, rfl, rfl, rfl, rfl, rfl, rfl, rfl, rfl, rfl, ?_, ?_⟩
  · intro e c
    simp [urlMainOk, generateUrlQRCode]
  · intro e evs c
    simp [contactMainOk, generateContactCard]

/-- C9: every contact-card conversion's VCARD payload contains
`FN:<FirstName> <LastName>`, and the tool writes exactly two files — the
stable name and the timestamped name, both under `baseDirectory` — with
identical content (the same rendered image object is saved twice); at
the Ada/Lovelace configuration the FN line is `FN:Ada Lovelace`. -/
theorem contact_two_writes_and_fn (e : Env) (evs : List LogEvent) (c : ContactConfig) :
    (∃ p q, contactCardData c =
      p ++ ("FN:" ++ c.firstName ++ " " ++ c.lastName) ++ q) ∧
    (contactMainOk e evs c .ok).writes =
      [(osPathJoin (qrBaseDirectory e) c.destFile, contactArtifact c),
       (osPathJoin (qrBaseDirectory e) c.destFileTimestamp, contactArtifact c)] ∧
    (contactMainOk e evs c .ok).writes.map (fun w => w.2) =
      [contactArtifact c, contactArtifact c] ∧
    (∃ p q, contactCardData { firstName := "Ada", lastName := "Lovelace" } =
      p ++ "FN:Ada Lovelace" ++ q) := by
  refine ⟨⟨"BEGIN:VCARD\nVERSION:4.0\nN:" ++ c.lastName ++ ";" ++ c.firstName ++ ";;;\n",
          "\nTITLE:" ++ c.title ++ "\nORG:" ++ c.organization ++ "\nTEL;TYPE=work:" ++ c.phone ++
          "\nEMAIL;TYPE=work:" ++ c.email ++ "\nURL:" ++ c.url ++ "\nNOTE:" ++ c.note ++
          "\nEND:VCARD", ?_⟩, ?_, ?_,
        ⟨"BEGIN:VCARD\nVERSION:4.0\nN:Lovelace;Ada;;;\n",
         "\nTITLE:\nORG:\nTEL;TYPE=work:\nEMAIL;TYPE=work:\nURL:\nNOTE:\nEND:VCARD", by decide⟩⟩
  · apply String.ext
    simp [contactCardData, String.data_append]
  · simp [contactMainOk, generateContactCard]
  · simp [contactMainOk, generateContactCard]

/-! ## Machinery for construction-failure reasoning (C10) -/

lemma isOkB_bind {α β : Type} (x : Except String α) (f : α → Except String β)
    (h : isOkB (x >>= f) = true) : ∃ a, x = Except.ok a ∧ isOkB (f a) = true := by
  cases x with
  | ok a => exact ⟨a, rfl, h⟩
  | error err => simp [isOkB, Bind.bind, Except.bind] at h

/-- If the contact-card `Config.__init__` succeeds, every required JSON
key was present (all reads except `Note` are unguarded subscripts). -/
lemma contactInit_ok_keys (fs d : String) (j : ContactJson)
    (h : isOkB (contactConfigInit fs j d) = true) :
    j.FrontColor.isSome ∧ j.BackColor.isSome ∧ j.Size.isSome ∧
    j.ModuleStyle.isSome ∧ j.FirstName.isSome ∧ j.LastName.isSome ∧
    j.Title.isSome ∧ j.Organization.isSome ∧ j.Phone.isSome ∧
    j.Email.isSome ∧ j.Url.isSome := by
  rw [contactConfigInit] at h
  obtain ⟨fc, hfc, h⟩ := isOkB_bind _ _ h
  obtain ⟨bc, hbc, h⟩ := isOkB_bind _ _ h
  obtain ⟨size, hsize, h⟩ := isOkB_bind _ _ h
  obtain ⟨ms, hms, h⟩ := isOkB_bind _ _ h
  obtain ⟨fn, hfn, h⟩ := isOkB_bind _ _ h
  obtain ⟨ln, hln, h⟩ := isOkB_bind _ _ h
  obtain ⟨ti, hti, h⟩ := isOkB_bind _ _ h
  obtain ⟨org, horg, h⟩ := isOkB_bind _ _ h
  obtain ⟨ph, hph, h⟩ := isOkB_bind _ _ h
  obtain ⟨em, hem, h⟩ := isOkB_bind _ _ h
  obtain ⟨u, hu, h⟩ := isOkB_bind _ _ h
  refine ⟨?_, ?_, ?_, ?_, ?_, ?_, ?_, ?_, ?_, ?_, ?_⟩ <;>
    first
      | (cases hj : j.FrontColor <;> rw [hj] at hfc <;> simp [jsonGet] at hfc <;> simp)
      | (cases hj : j.BackColor <;> rw [hj] at hbc <;> simp [jsonGet] at hbc <;> simp)
      | (cases hj : j.Size <;> rw [hj] at hsize <;> simp [jsonGet] at hsize <;> simp)
      | (cases hj : j.ModuleStyle <;> rw [hj] at hms <;> simp [jsonGet] at hms <;> simp)
      | (cases hj : j.FirstName <;> rw [hj] at hfn <;> simp [jsonGet] at hfn <;> simp)
      | (cases hj : j.LastName <;> rw [hj] at hln <;> simp [jsonGet] at hln <;> simp)
      | (cases hj : j.Title <;> rw [hj] at hti <;> simp [jsonGet] at hti <;> simp)
      | (cases hj : j.Organization <;> rw [hj] at horg <;> simp [jsonGet] at horg <;> simp)
      | (cases hj : j.Phone <;> rw [hj] at hph <;> simp [jsonGet] at hph <;> simp)
      | (cases hj : j.Email <;> rw [hj] at hem <;> simp [jsonGet] at hem <;> simp)
      | (cases hj : j.Url <;> rw [hj] at hu <;> simp [jsonGet] at hu <;> simp)

/-- C10: `Note` is the one optional contact-card key: a configuration
complete except for `Note` still constructs, with `note = ''` (so the
VCARD ends `NOTE:` followed by `END:VCARD`), whereas a missing
`FirstName`, `LastName`, `Title`, `Organization`, `Phone`, `Email` or
`Url` key makes construction fail. -/
theorem contact_note_optional (j : ContactJson) (fs d : String) :
    (∀ (fc bc : Rgb) (size : Int) (ms fn ln ti org ph em u : String),
      j.FrontColor = some fc → j.BackColor = some bc → j.Size = some size →
      j.ModuleStyle = some ms → j.FirstName = some fn → j.LastName = some ln →
      j.Title = some ti → j.Organization = some org → j.Phone = some ph →
      j.Email = some em → j.Url = some u → j.Note = none →
      ∃ evs c, contactConfigInit fs j d = Except.ok (evs, c) ∧ c.note = "" ∧
        ∃ p, contactCardData c = p ++ "NOTE:\nEND:VCARD") ∧
    (j.FirstName = none → isOkB (contactConfigInit fs j d) = false) ∧
    (j.LastName = none → isOkB (contactConfigInit fs j d) = false) ∧
    (j.Title = none → isOkB (contactConfigInit fs j d) = false) ∧
    (j.Organization = none → isOkB (contactConfigInit fs j d) = false) ∧
    (j.Phone = none → isOkB (contactConfigInit fs j d) = false) ∧
    (j.Email = none → isOkB (contactConfigInit fs j d) = false) ∧
    (j.Url = none → isOkB (contactConfigInit fs j d) = false) := by
  constructor
  · intro fc bc size ms fn ln ti org ph em u hfc hbc hsize hms hfn hln hti horg hph hem hu hnote
    simp only [contactConfigInit, jsonGet, hfc, hbc, hsize, hms, hfn, hln, hti, horg,
      hph, hem, hu, hnote]
    cases hp : ((splitOnChar '.' d.data).map String.mk).get? 1 with
    | some second =>
        refine ⟨_, _, rfl, rfl, ?_⟩
        refine ⟨"BEGIN:VCARD\nVERSION:4.0\nN:" ++ ln ++ ";" ++ fn ++ ";;;\nFN:" ++ fn ++
          " " ++ ln ++ "\nTITLE:" ++ ti ++ "\nORG:" ++ org ++ "\nTEL;TYPE=work:" ++ ph ++
          "\nEMAIL;TYPE=work:" ++ em ++ "\nURL:" ++ u ++ "\n", ?_⟩
        apply String.ext
        simp [contactCardData, String.data_append]
    | none =>
        refine ⟨_, _, rfl, rfl, ?_⟩
        refine ⟨"BEGIN:VCARD\nVERSION:4.0\nN:" ++ ln ++ ";" ++ fn ++ ";;;\nFN:" ++ fn ++
          " " ++ ln ++ "\nTITLE:" ++ ti ++ "\nORG:" ++ org ++ "\nTEL;TYPE=work:" ++ ph ++
          "\nEMAIL;TYPE=work:" ++ em ++ "\nURL:" ++ u ++ "\n", ?_⟩
        apply String.ext
        simp [contactCardData, String.data_append]
  refine ⟨?_, ?_, ?_, ?_, ?_, ?_, ?_⟩ <;> intro hk <;>
    cases hok : isOkB (contactConfigInit fs j d) <;>
    first
      | rfl
      | (exfalso
         have hkeys := contactInit_ok_keys fs d j hok
         first
           | (have hs := hkeys.2.2.2.2.1; rw [hk] at hs; simp at hs)
           | (have hs := hkeys.2.2.2.2.2.1; rw [hk] at hs; simp at hs)
           | (have hs := hkeys.2.2.2.2.2.2.1; rw [hk] at hs; simp at hs)
           | (have hs := hkeys.2.2.2.2.2.2.2.1; rw [hk] at hs; simp at hs)
           | (have hs := hkeys.2.2.2.2.2.2.2.2.1; rw [hk] at hs; simp at hs)
           | (have hs := hkeys.2.2.2.2.2.2.2.2.2.1; rw [hk] at hs; simp at hs)
           | (have hs := hkeys.2.2.2.2.2.2.2.2.2.2; rw [hk] at hs; simp at hs))

/-- Witness for C10 at concrete configurations. -/
theorem contact_note_optional_w :
    (∃ evs c,
      contactConfigInit "2024.11.21_10.30.05" sampleContactJson "vcard_qr.png" =
        Except.ok (evs, c) ∧ c.note = "" ∧
      ∃ p, contactCardData c = p ++ "NOTE:\nEND:VCARD") ∧
    isOkB (contactConfigInit "2024.11.21_10.30.05" sampleContactJsonNoFirst "vcard_qr.png") =
      false := by
  constructor
  · exact (contact_note_optional sampleContactJson "2024.11.21_10.30.05" "vcard_qr.png").1
      ⟨0, 0, 0⟩ ⟨255, 255, 255⟩ 5 "Square" "Ada" "Lovelace" "Countess"
      "Analytical Engines Ltd" "+44 20 0000 0000" "ada@example.org" "https://example.org"
      rfl rfl rfl rfl rfl rfl rfl rfl rfl rfl rfl rfl
  · exact (contact_note_optional sampleContactJsonNoFirst "2024.11.21_10.30.05"
      "vcard_qr.png").2.1 rfl

/-- C8: for each of the five tools, a `KeyboardInterrupt` raised during
the conversion step yields exit status 0 (the handler's `sys.exit(0)`),
the visible log contains the tool's `aborted by user.` record, and the
`finally` report — elapsed time, artifact path(s), log path and closing
banner — is still emitted before the process terminates. -/
theorem interrupt_soft_stop (e : Env) (src dest : String)
    (c0w : WifiConfig) (nw pw : String) (c0u : UrlConfig)
    (evs : List LogEvent) (c0c : ContactConfig) :
    ((png2iconMain e src dest .interrupt).exitCode = 0 ∧
     "png2icon.py aborted by user." ∈ (png2iconMain e src dest .interrupt).logs ∧
     ("png2icon processing time:   " ++ e.execTime ++ " ") ∈ (png2iconMain e src dest .interrupt).logs ∧
     (".ico file: " ++ osPathJoin (pngBaseDirectory e) (pngResolveDestFile dest src)) ∈ (png2iconMain e src dest .interrupt).logs ∧
     ("Log file:  " ++ pngLogFilename e) ∈ (png2iconMain e src dest .interrupt).logs ∧
     "png2icon completed.   " ∈ (png2iconMain e src dest .interrupt).logs) ∧
    ((video2gifMain e src dest .interrupt).exitCode = 0 ∧
     "Video2Gif.py aborted by user." ∈ (video2gifMain e src dest .interrupt).logs ∧
     ("Video2Gif processing time:   " ++ e.execTime ++ " ") ∈ (video2gifMain e src dest .interrupt).logs ∧
     (".gif file: " ++ osPathJoin (gifBaseDirectory e) (gifResolveDestFile dest src)) ∈ (video2gifMain e src dest .interrupt).logs ∧
     ("Log file:  " ++ gifLogFilename e) ∈ (video2gifMain e src dest .interrupt).logs ∧
     "Video2Gif completed.   " ∈ (video2gifMain e src dest .interrupt).logs) ∧
    ((wifiMainOk e c0w nw pw .interrupt).exitCode = 0 ∧
     "WifiQRCodeGenerator.py aborted by user." ∈ (wifiMainOk e c0w nw pw .interrupt).logs ∧
     ("WifiQRCodeGenerator processing time:   " ++ e.execTime ++ " ") ∈ (wifiMainOk e c0w nw pw .interrupt).logs ∧
     ("WiFi QR Code file: " ++ osPathJoin (qrBaseDirectory e) c0w.destFileWifi) ∈ (wifiMainOk e c0w nw pw .interrupt).logs ∧
     ("Log file: " ++ qrLogFilename e) ∈ (wifiMainOk e c0w nw pw .interrupt).logs ∧
     "WifiQRCodeGenerator completed.   " ∈ (wifiMainOk e c0w nw pw .interrupt).logs) ∧
    ((urlMainOk e c0u .interrupt).exitCode = 0 ∧
     "UrlQRCodeGenerator.py aborted by user." ∈ (urlMainOk e c0u .interrupt).logs ∧
     ("UrlQRCodeGenerator processing time:   " ++ e.execTime ++ " ") ∈ (urlMainOk e c0u .interrupt).logs ∧
     ("URL QR Code file: " ++ osPathJoin (qrBaseDirectory e) c0u.destFileUrl) ∈ (urlMainOk e c0u .interrupt).logs ∧
     ("Log file: " ++ qrLogFilename e) ∈ (urlMainOk e c0u .interrupt).logs ∧
     "UrlQRCodeGenerator completed.   " ∈ (urlMainOk e c0u .interrupt).logs) ∧
    ((contactMainOk e evs c0c .interrupt).exitCode = 0 ∧
     "ContactCardQRCodeGenerator.py aborted by user." ∈ (contactMainOk e evs c0c .interrupt).logs ∧
     ("ContactCardQRCodeGenerator processing time:   " ++ e.execTime ++ " ") ∈ (contactMainOk e evs c0c .interrupt).logs ∧
     ("QR Code file: " ++ osPathJoin (qrBaseDirectory e) c0c.destFile) ∈ (contactMainOk e evs c0c .interrupt).logs ∧
     ("QR Code file: " ++ osPathJoin (qrBaseDirectory e) c0c.destFileTimestamp) ∈ (contactMainOk e evs c0c .interrupt).logs ∧
     ("Log file:     " ++ qrLogFilename e) ∈ (contactMainOk e evs c0c .interrupt).logs ∧
     "ContactCardQRCodeGenerator completed.   " ∈ (contactMainOk e evs c0c .interrupt).logs) := by
  rcases e with ⟨cwd, dd, fs, argv, verbose, sL, sU, eL, eU, et⟩
  refine ⟨?_, ?_, ?_, ?_, ?_⟩ <;> cases verbose <;>
    simp [png2iconMain, video2gifMain, wifiMainOk, urlMainOk, contactMainOk,
      generateIcoFile, generateGifFile, generateWifiQRCode, generateUrlQRCode,
      generateContactCard, pngAbortEvents, gifAbortEvents, wifiAbortEvents,
      urlAbortEvents, contactAbortEvents, pngFinallyEvents, gifFinallyEvents,
      wifiFinallyEvents, urlFinallyEvents, contactFinallyEvents, bannerEvents,
      wifiEffectiveConfig, visibleLogs, loggerLevel]

set_option maxRecDepth 8192 in
/-- C2 counterexample: in a concrete Png2Icon run whose conversion
raises, the process still exits 0 and logs the error message, but NO log
record carries a stack trace — the exception is swallowed inside
`GenerateIcoFile`, which logs only `Error processing <src>: <msg>`, so
neither a record containing `Call Stack` nor one containing the rendered
traceback exists. -/
theorem conversion_error_no_trace_cex :
    (png2iconMain sampleEnv "logo.png" ""
      (.exn "boom" "Traceback (most recent call last): SENTINEL")).exitCode = 0 ∧
    "Error processing logo.png: boom" ∈
      (png2iconMain sampleEnv "logo.png" ""
        (.exn "boom" "Traceback (most recent call last): SENTINEL")).logs ∧
    (∀ s ∈ (png2iconMain sampleEnv "logo.png" ""
        (.exn "boom" "Traceback (most recent call last): SENTINEL")).logs,
      ¬ ("Call Stack".data <:+: s.data)) ∧
    (∀ s ∈ (png2iconMain sampleEnv "logo.png" ""
        (.exn "boom" "Traceback (most recent call last): SENTINEL")).logs,
      ¬ ("SENTINEL".data <:+: s.data)) := by
  decide

/-- C2 amended: a conversion call that raises still yields exit code 0
in all five tools (no crash); the three QR generators log both an
`Error: <msg>` record and a `Call Stack:` record carrying the formatted
traceback, while Png2Icon and Video2Gif — whose generate functions
swallow the exception internally — log only the
`Error processing <src>: <msg>` record (see the counterexample for the
absent stack trace). -/
theorem conversion_error_soft_fail (e : Env) (src dest msg trace : String)
    (c0w : WifiConfig) (nw pw : String) (c0u : UrlConfig)
    (evs : List LogEvent) (c0c : ContactConfig) :
    ((png2iconMain e src dest (.exn msg trace)).exitCode = 0 ∧
     ("Error processing " ++ src ++ ": " ++ msg) ∈ (png2iconMain e src dest (.exn msg trace)).logs) ∧
    ((video2gifMain e src dest (.exn msg trace)).exitCode = 0 ∧
     ("Error processing " ++ src ++ ": " ++ msg) ∈ (video2gifMain e src dest (.exn msg trace)).logs) ∧
    ((wifiMainOk e c0w nw pw (.exn msg trace)).exitCode = 0 ∧
     ("Error: " ++ msg) ∈ (wifiMainOk e c0w nw pw (.exn msg trace)).logs ∧
     ("Call Stack:\n" ++ trace) ∈ (wifiMainOk e c0w nw pw (.exn msg trace)).logs) ∧
    ((urlMainOk e c0u (.exn msg trace)).exitCode = 0 ∧
     ("Error: " ++ msg) ∈ (urlMainOk e c0u (.exn msg trace)).logs ∧
     ("Call Stack:\n" ++ trace) ∈ (urlMainOk e c0u (.exn msg trace)).logs) ∧
    ((contactMainOk e evs c0c (.exn msg trace)).exitCode = 0 ∧
     ("Error: " ++ msg) ∈ (contactMainOk e evs c0c (.exn msg trace)).logs ∧
     ("Call Stack:\n" ++ trace) ∈ (contactMainOk e evs c0c (.exn msg trace)).logs) := by
  rcases e with ⟨cwd, dd, fs, argv, verbose, sL, sU, eL, eU, et⟩
  refine ⟨?_, ?_, ?_, ?_, ?_⟩ <;> cases verbose <;>
    simp [png2iconMain, video2gifMain, wifiMainOk, urlMainOk, contactMainOk,
      generateIcoFile, generateGifFile, generateWifiQRCode, generateUrlQRCode,
      generateContactCard, wifiErrorEvents, urlErrorEvents, contactErrorEvents,
      pngFinallyEvents, gifFinallyEvents, wifiFinallyEvents, urlFinallyEvents,
      contactFinallyEvents, bannerEvents, wifiEffectiveConfig, visibleLogs, loggerLevel]

set_option maxRecDepth 8192 in
/-- C1: evaluation at the failing input. In the Png2Icon run
`png2icon.py logo.png` from working directory `/work`, the conversion
writes the artifact at `/work/logo.ico` — the resolved destination is the
bare filename `logo.ico`, saved relative to the working directory, NOT
under `baseDirectory` — while the tool's own final report names
`<baseDirectory>/logo.ico`. The log file, and the QR generators'
artifacts (here the WiFi one), do live under their `baseDirectory`. -/
theorem artifact_location_cex :
    (png2iconMain sampleEnv "logo.png" "" .ok).writes =
      [("/work/logo.ico", icoArtifact "logo.png")] ∧
    ¬ ((pngBaseDirectory sampleEnv).data <+: "/work/logo.ico".data) ∧
    (".ico file: " ++ osPathJoin (pngBaseDirectory sampleEnv) "logo.ico") ∈
      (png2iconMain sampleEnv "logo.png" "" .ok).logs ∧
    (pngBaseDirectory sampleEnv).data <+: (pngLogFilename sampleEnv).data ∧
    (wifiMainOk sampleEnv sampleWifiConfig "HomeNet" "secret123" .ok).writes.map
        (fun w => w.1) =
      ["/work/QRCode_Artifacts/2024.11.21_10.30/QR_Code_Wifi_2024.11.21_10.30.05.png"] ∧
    (qrBaseDirectory sampleEnv).data <+:
      "/work/QRCode_Artifacts/2024.11.21_10.30/QR_Code_Wifi_2024.11.21_10.30.05.png".data := by
  decide

end PyUtil
